import Mathlib

set_option maxRecDepth 16384

/-
Verification of the typeform-webhook repository (two revisions of the same
serverless endpoint: src/api/webhook.js, called Api below, and
src/unnamed/part_000, called Unnamed below).

The JavaScript code operates on untyped JSON values, so the embedding models
JSON values as an inductive type and JavaScript operations (property access,
truthiness, string coercion, JSON.stringify) as functions on that type.
JavaScript numbers are modelled as integers (all numeric values that the
webhook handles are integral identifiers and counts); string length counts
characters. A thrown TypeError is modelled as Except.error ().
-/

inductive Json where
  | null : Json
  | bool : Bool → Json
  | num : Int → Json
  | str : String → Json
  | arr : List Json → Json
  | obj : List (String × Json) → Json

mutual
/-- Structural equality test on JSON values, the semantics of the value
comparison used by the store lookup on the idempotency key. -/
def jsonBeq : Json → Json → Bool
  | .null, .null => true
  | .bool a, .bool b => a == b
  | .num a, .num b => a == b
  | .str a, .str b => a == b
  | .arr a, .arr b => jsonBeqList a b
  | .obj a, .obj b => jsonBeqFields a b
  | _, _ => false

def jsonBeqList : List Json → List Json → Bool
  | [], [] => true
  | a :: as, b :: bs => jsonBeq a b && jsonBeqList as bs
  | _, _ => false

def jsonBeqFields : List (String × Json) → List (String × Json) → Bool
  | [], [] => true
  | (k, v) :: as, (k', v') :: bs => k == k' && jsonBeq v v' && jsonBeqFields as bs
  | _, _ => false
end

/-- Equality test extended to possibly-undefined values. -/
def optJsonBeq : Option Json → Option Json → Bool
  | none, none => true
  | some a, some b => jsonBeq a b
  | _, _ => false

/-- Property access on a JSON value: obj.k is the first binding of k when the
value is an object, and undefined (none) otherwise. -/
def jsGet : Json → String → Option Json
  | .obj fs, k => (fs.find? (fun kv => kv.1 == k)).map (fun kv => kv.2)
  | _, _ => none

/-- JavaScript truthiness of a defined value. -/
def jsTruthy : Json → Bool
  | .null => false
  | .bool b => b
  | .num n => n != 0
  | .str s => s != ""
  | .arr _ => true
  | .obj _ => true

/-- JavaScript truthiness where none stands for undefined. -/
def jsOptTruthy : Option Json → Bool
  | none => false
  | some j => jsTruthy j

/-- Optional chaining o?.k : undefined when the base is nullish, otherwise a
property access. -/
def optChain (o : Option Json) (k : String) : Option Json :=
  match o with
  | none => none
  | some .null => none
  | some j => jsGet j k

/-- Two-step property access a.k1.k2 where the first step is known non-nullish
or guarded by the caller; a missing intermediate yields undefined. -/
def jsGet2 (a : Json) (k1 k2 : String) : Option Json :=
  match jsGet a k1 with
  | none => none
  | some j => jsGet j k2

/-- JavaScript logical-or on possibly-undefined values: the first operand when
truthy, otherwise the second. -/
def jsOr (a b : Option Json) : Option Json :=
  if jsOptTruthy a then a else b

mutual
/-- String(x) coercion of a defined JSON value, as used for object property
keys and Number.prototype.toString style rendering. Arrays render as the
comma join of their elements (null elements render empty), objects render as
the standard object tag. -/
def jsString : Json → String
  | .null => "null"
  | .bool true => "true"
  | .bool false => "false"
  | .num n => toString n
  | .str s => s
  | .arr xs => jsStringArr xs
  | .obj _ => "[object Object]"

/-- Comma join used by array-to-string coercion. -/
def jsStringArr : List Json → String
  | [] => ""
  | [x] => jsStringElem x
  | x :: y :: rest => jsStringElem x ++ "," ++ jsStringArr (y :: rest)

/-- Element rendering inside a join: null renders as the empty string, the
rest as their String(x) coercion. -/
def jsStringElem : Json → String
  | .null => ""
  | .bool true => "true"
  | .bool false => "false"
  | .num n => toString n
  | .str s => s
  | .arr xs => jsStringArr xs
  | .obj _ => "[object Object]"
end

/-- Conversion of a possibly-undefined value to a property key, as in
obj[k] where k is any JavaScript value. -/
def jsKeyOf : Option Json → String
  | none => "undefined"
  | some j => jsString j

/-- Escape of one character inside a JSON string literal. Quote and backslash
are escaped; other characters are kept (control-character escapes do not occur
in the modelled payloads). -/
def escChar (c : Char) : List Char :=
  if c = '"' then ['\\', '"']
  else if c = '\\' then ['\\', '\\']
  else [c]

def escList : List Char → List Char
  | [] => []
  | c :: cs => escChar c ++ escList cs

/-- Escape of a string for JSON.stringify. -/
def escape (s : String) : String :=
  String.mk (escList s.data)

mutual
/-- JSON.stringify on a defined JSON value. -/
def stringify : Json → String
  | .null => "null"
  | .bool true => "true"
  | .bool false => "false"
  | .num n => toString n
  | .str s => "\"" ++ escape s ++ "\""
  | .arr xs => "[" ++ stringifyItems xs ++ "]"
  | .obj fs => "\x7b" ++ stringifyFields fs ++ "\x7d"

def stringifyItems : List Json → String
  | [] => ""
  | [x] => stringify x
  | x :: y :: rest => stringify x ++ "," ++ stringifyItems (y :: rest)

def stringifyFields : List (String × Json) → String
  | [] => ""
  | [kv] => "\"" ++ escape kv.1 ++ "\":" ++ stringify kv.2
  | kv :: kv2 :: rest =>
      "\"" ++ escape kv.1 ++ "\":" ++ stringify kv.2 ++ "," ++ stringifyFields (kv2 :: rest)
end

/-- Lowercasing by characters, the semantics of String.prototype.toLowerCase
on the ASCII labels that the webhook handles. -/
def toLowerJs (s : String) : String :=
  String.mk (s.data.map Char.toLower)

/-- Whitespace trimming at both ends, the semantics of
String.prototype.trim. -/
def trimJs (s : String) : String :=
  String.mk (((s.data.dropWhile Char.isWhitespace).reverse.dropWhile Char.isWhitespace).reverse)

/-- Substring containment test, the semantics of String.prototype.includes. -/
def strIncludes (s pat : String) : Bool :=
  (List.range (s.data.length + 1)).any
    (fun i => (s.data.drop i).take pat.data.length == pat.data)

/-- The value of (v or the empty string).toLowerCase().trim() where v is a
possibly-undefined JSON value: a string is lowercased and trimmed, a falsy
value yields the empty string, and a truthy non-string raises a TypeError
because toLowerCase is not a function on it. -/
def lcTrim : Option Json → Except Unit String
  | some (.str s) => .ok (trimJs (toLowerJs s))
  | some j => if jsTruthy j then .error () else .ok ""
  | none => .ok ""

/-- Lookup in a JavaScript object modelled as an association list whose
values may be undefined (none); absent key and undefined value both read as
undefined. -/
def objLookup (m : List (String × Option Json)) (k : String) : Option Json :=
  match m.find? (fun kv => kv.1 == k) with
  | some kv => kv.2
  | none => none

/-- Assignment obj[k] = v: overwrites in place or appends a new binding. -/
def objSet (m : List (String × Option Json)) (k : String) (v : Option Json) :
    List (String × Option Json) :=
  match m with
  | [] => [(k, v)]
  | (k', v') :: rest => if k' = k then (k, v) :: rest else (k', v') :: objSet rest k v

/-- Assignment of the same value under several keys in order. -/
def objSetList (m : List (String × Option Json)) (ks : List String) (v : Option Json) :
    List (String × Option Json) :=
  match ks with
  | [] => m
  | k :: rest => objSetList (objSet m k v) rest v

/-- The length property of a JSON value: character count of strings, element
count of arrays, the length field of plain objects, undefined otherwise. -/
def jsLengthProp : Json → Option Json
  | .str s => some (.num s.length)
  | .arr xs => some (.num xs.length)
  | .obj fs => jsGet (.obj fs) "length"
  | _ => none

/-- Comparison (v > n) where v is a possibly-undefined length value; only a
numeric value compares greater (undefined yields NaN comparisons, which are
false, and non-numeric length fields do not occur in the modelled payloads). -/
def jsGtNat (v : Option Json) (n : Nat) : Bool :=
  match v with
  | some (.num m) => (n : Int) < m
  | _ => false

/-- Monadic list map over Except, propagating the first thrown error, as a
JavaScript Array.prototype.map whose callback may throw. -/
def mapEM {α β : Type} (f : α → Except Unit β) : List α → Except Unit (List β)
  | [] => .ok []
  | a :: as =>
    match f a with
    | .error e => .error e
    | .ok b =>
      match mapEM f as with
      | .error e => .error e
      | .ok bs => .ok (b :: bs)

/-- Monadic fold over Except, as a JavaScript forEach whose callback may
throw and which threads mutable state. -/
def foldE {σ α : Type} (f : σ → α → Except Unit σ) : σ → List α → Except Unit σ
  | s, [] => .ok s
  | s, a :: as =>
    match f s a with
    | .error e => .error e
    | .ok s' => foldE f s' as

/-
Data model of the durable relational store (Supabase): the submissions table
and the answers table. Store-assigned identities are modelled as a counter.
-/

structure SubmissionRow where
  id : Nat
  form_id : Option Json
  submission_id : Option Json
  submitted_at : Option Json
  raw_data : Json

structure AnswerRow where
  submission_id : Nat
  question_id : Option Json
  question_text : Option Json
  answer_text : Option Json
  answer_type : Option Json

structure Db where
  submissions : List SubmissionRow
  answers : List AnswerRow
  nextId : Nat

namespace Unnamed

/-
Embedding of src/unnamed/part_000.
-/

/-- Transliterates getAnswerText (part_000 lines 523 to 549). The result is
the JavaScript return value: none is undefined, some Json.null is null. A
TypeError (labels.join called on a truthy non-array) is Except.error. -/
def getAnswerText (answer : Json) : Except Unit (Option Json) :=
  if !jsTruthy answer then .ok (some .null)
  else
    match jsGet answer "type" with
    | some (.str t) =>
      if t = "text" ∨ t = "email" ∨ t = "url" then .ok (jsGet answer t)
      else if t = "choice" then .ok (optChain (jsGet answer "choice") "label")
      else if t = "choices" then
        match optChain (jsGet answer "choices") "labels" with
        | none => .ok none
        | some l =>
          match l with
          | .null => .ok none
          | .arr ls => .ok (some (.str (String.intercalate ", " (ls.map jsStringElem))))
          | _ => .error ()
      else if t = "number" then
        match jsGet answer "number" with
        | none => .ok none
        | some l =>
          match l with
          | .null => .ok none
          | v => .ok (some (.str (jsString v)))
      else if t = "boolean" then
        .ok (some (.str (if jsOptTruthy (jsGet answer "boolean") then "Yes" else "No")))
      else if t = "date" then .ok (jsGet answer "date")
      else if t = "file_url" then .ok (jsGet answer "file_url")
      else if t = "phone_number" then
        .ok (jsOr (jsGet answer "phone_number") (some (.str (stringify answer))))
      else .ok (some (.str (stringify answer)))
    | _ => .ok (some (.str (stringify answer)))

/-- Transliterates the question map construction (part_000 lines 117 to 122
and 173 to 181): for each field of the embedded definition, the entry keyed by
the field id maps to the field title. A null field element raises a TypeError;
a truthy non-array fields value has no forEach and raises a TypeError. -/
def buildQuestionMap (fr : Json) : Except Unit (List (String × Option Json)) :=
  match optChain (jsGet fr "definition") "fields" with
  | none => .ok []
  | some j =>
    if !jsTruthy j then .ok []
    else
      match j with
      | .arr fs =>
        foldE (fun m f =>
          match f with
          | .null => .error ()
          | _ => .ok (objSet m (jsKeyOf (jsGet f "id")) (jsGet f "title"))) [] fs
      | _ => .error ()

/-- Transliterates one element of the answers insert list (part_000 lines 128
to 134): the stored question text is the question map entry for the field id,
else the field ref, else the literal Unknown. -/
def mkAnswerRow (qm : List (String × Option Json)) (sid : Nat) (a : Json) :
    Except Unit AnswerRow :=
  match getAnswerText a with
  | .error e => .error e
  | .ok at' =>
    .ok { submission_id := sid
          question_id := jsGet2 a "field" "id"
          question_text :=
            jsOr (objLookup qm (jsKeyOf (jsGet2 a "field" "id")))
              (jsOr (jsGet2 a "field" "ref") (some (.str "Unknown")))
          answer_text := at'
          answer_type := jsGet a "type" }

/-- Transliterates the answers block of saveToSupabase (part_000 lines 125 to
146): when the answers value is truthy with positive length it must be an
array (otherwise filter raises a TypeError); invalid answers without a truthy
field are skipped; each surviving answer maps to a row. -/
def answersRows (qm : List (String × Option Json)) (sid : Nat) (fr : Json) :
    Except Unit (List AnswerRow) :=
  match jsGet fr "answers" with
  | none => .ok []
  | some j =>
    if !jsTruthy j then .ok []
    else if jsGtNat (jsLengthProp j) 0 then
      match j with
      | .arr as =>
        mapEM (mkAnswerRow qm sid)
          (as.filter (fun a => jsTruthy a && jsOptTruthy (jsGet a "field")))
      | _ => .error ()
    else .ok []

/-- Transliterates saveToSupabase (part_000 lines 89 to 150). The store is
threaded explicitly; the returned Nat is the store identity of the submission.
A row matching the idempotency key short-circuits with the existing identity
and leaves the store untouched. The submission insert happens before the
question map and the answers are built, so a later throw leaves the
submission row in place, matching the JavaScript control flow. An insert
error on the answers batch is swallowed by the source, so the model performs
the append unconditionally. -/
def saveToSupabase (db : Db) (fr : Json) : Db × Except Unit Nat :=
  match db.submissions.find? (fun s => optJsonBeq s.submission_id (jsGet fr "token")) with
  | some existing => (db, .ok existing.id)
  | none =>
    let sub : SubmissionRow :=
      { id := db.nextId
        form_id := jsGet fr "form_id"
        submission_id := jsGet fr "token"
        submitted_at := jsGet fr "submitted_at"
        raw_data := fr }
    let db1 : Db :=
      { submissions := db.submissions ++ [sub]
        answers := db.answers
        nextId := db.nextId + 1 }
    match buildQuestionMap fr with
    | .error e => (db1, .error e)
    | .ok qm =>
      match answersRows qm sub.id fr with
      | .error e => (db1, .error e)
      | .ok rows => ({ db1 with answers := db1.answers ++ rows }, .ok sub.id)

end Unnamed

/-- Match rule of one branch of the classifier chain: either any keyword of
one list matches, or (for the conjunctive branch) some keyword of each of two
lists matches. -/
inductive Rule where
  | anyOf : List String → Rule
  | andAny : List String → List String → Rule

/-- Test of one keyword against the lowercased trimmed question title and the
question ref, transliterating the matchesAny helper (part_000 lines 241 to
246): case-insensitive substring containment against either string. -/
def matchesKw (qt qr kw : String) : Bool :=
  strIncludes qt (toLowerJs kw) || strIncludes qr (toLowerJs kw)

def matchesAnyKw (qt qr : String) (kws : List String) : Bool :=
  kws.any (matchesKw qt qr)

def ruleMatches (qt qr : String) : Rule → Bool
  | .anyOf kws => matchesAnyKw qt qr kws
  | .andAny k1 k2 => matchesAnyKw qt qr k1 && matchesAnyKw qt qr k2

namespace Unnamed

/-- Transliterates the classifier chain of updateAirtable (part_000 lines 250
to 436) as an ordered list: each entry is one else-if branch in source order,
carrying its keyword rule and the list of field names that branch assigns
(the name and email branches assign two field names each, a current and a
legacy column). Evaluating the list by first match is exactly the semantics
of the else-if chain. -/
def catalog : List (Rule × List String) :=
  [ (.anyOf ["full name", "your name", "name", "what\x27s your name"], ["Full Name", "Name"]),
    (.anyOf ["email", "e-mail", "email address", "your email"], ["Email Address", "Email"]),
    (.anyOf ["mobile", "phone", "whatsapp", "contact number", "phone number"], ["Mobile Number"]),
    (.anyOf ["age group", "age range", "how old", "your age"], ["Age Group"]),
    (.anyOf ["where do you currently live", "current location", "living in", "where do you live"], ["Current Location"]),
    (.anyOf ["current profession", "occupation", "what do you do", "your profession"], ["Current Profession"]),
    (.anyOf ["household income", "annual income", "family income", "income range"], ["Household Income"]),
    (.anyOf ["household size", "family size", "how many people", "family members"], ["Household Size"]),
    (.anyOf ["exploring this purchase", "how long", "been exploring", "purchase duration"], ["Purchase Duration"]),
    (.anyOf ["buying journey", "purchase stage", "where are you", "journey stage"], ["Buying Journey Stage"]),
    (.anyOf ["properties have you purchased", "bought before", "previous purchases", "purchased before"], ["Properties Purchased Before"]),
    (.anyOf ["prompting this property search", "why now", "what prompted", "property search"], ["Purchase Prompt"]),
    (.anyOf ["dream property", "ideal investment", "perfect property", "ideal property"], ["Dream Property Description"]),
    (.anyOf ["preferred location", "where would you like", "location preference", "preferred locations"], ["Preferred Locations"]),
    (.anyOf ["main intention", "intention behind", "investment goal", "why invest"], ["Investment Intention"]),
    (.anyOf ["inspires this investment", "what inspires", "motivation", "investment inspiration"], ["Investment Inspiration"]),
    (.anyOf ["vibe are you looking", "atmosphere", "what vibe", "preferred vibe"], ["Preferred Vibe"]),
    (.anyOf ["asset type", "property type", "type of property"], ["Asset Type"]),
    (.anyOf ["budget range", "price range", "how much", "budget"], ["Budget Range"]),
    (.anyOf ["ownership structure", "how own", "ownership type", "ownership"], ["Ownership Structure"]),
    (.anyOf ["possession timeline", "when move in", "possession date", "move in"], ["Possession Timeline"]),
    (.anyOf ["close the deal", "purchase timeline", "when buy", "deal timeline"], ["Deal Closure Timeline"]),
    (.anyOf ["management model", "property management", "manage property", "management"], ["Management Model"]),
    (.anyOf ["funding preference", "payment", "financing", "funding"], ["Funding Preference"]),
    (.andAny ["matters most"] ["location"], ["Location Priorities"]),
    (.anyOf ["climate do you", "weather preference", "climate preference", "preferred climate"], ["Preferred Climate"]),
    (.anyOf ["type of area", "urban", "rural", "area preference", "area type"], ["Area Type Preference"]),
    (.anyOf ["too far", "distance", "how far", "distance tolerance"], ["Distance Tolerance"]),
    (.anyOf ["community setup", "type of community", "community type"], ["Community Setup"]),
    (.anyOf ["community be friendly", "friendly for", "suitable for", "community friendly"], ["Community Friendly For"]),
    (.anyOf ["natural features", "nature", "natural surroundings"], ["Natural Features"]),
    (.anyOf ["terrain", "topography", "land type"], ["Terrain Preference"]),
    (.anyOf ["preferred views", "view preference", "what views"], ["Preferred Views"]),
    (.anyOf ["outdoor amenities", "outdoor facilities", "outdoor features"], ["Outdoor Amenities"]),
    (.anyOf ["unit configuration", "bedrooms", "bhk", "rooms", "configuration"], ["Unit Configuration"]),
    (.anyOf ["facing direction", "vastu", "which direction", "house facing"], ["House Facing Direction"]),
    (.anyOf ["furnishing level", "furnished", "furnishing"], ["Furnishing Level"]),
    (.anyOf ["interior style", "design style", "aesthetic"], ["Interior Style"]),
    (.anyOf ["smart home", "automation", "smart features"], ["Smart Home Preferences"]),
    (.anyOf ["must-have features", "essential features", "must have"], ["Must Have Features"]),
    (.anyOf ["where did you hear", "hear about us", "how did you find", "referral"], ["Referral Source"]),
    (.anyOf ["tell us anything else", "additional", "anything else", "comments"], ["Additional Notes"]) ]

/-- Result of the specific classifier chain: the field names assigned by the
first matching branch, none when no branch matches. -/
def specificFields (qt qr : String) : Option (List String) :=
  match catalog.find? (fun e => ruleMatches qt qr e.1) with
  | some e => some e.2
  | none => none

/-- The fixed sequence of generic catch-all columns (part_000 lines 215 to
220). -/
def optionalDetailFields : List String :=
  ["Investment Details", "Location Details", "Amenities Details", "Home Details"]

/-- Trigger phrases of the catch-all branch (part_000 line 440). -/
def catchAllTrigger (qt qr : String) : Bool :=
  matchesAnyKw qt qr ["optional", "add details here", "if you want", "want to tell us more"]

end Unnamed

/-- Mutable state threaded through the per-answer mapping loop of
updateAirtable: the record fields being built, the mapped counter, the
unmapped previews, and the next catch-all slot index. -/
structure ATState where
  fields : List (String × Option Json)
  mappedCount : Nat
  unmapped : List Json
  optIdx : Nat

/-- Truncation of the answer value to the Airtable field ceiling (part_000
lines 236 to 238): strings longer than 100000 characters are cut; a
non-string whose length property exceeds the bound has no substring method
and raises a TypeError; otherwise the value passes through unchanged. -/
def truncate100k (v : Json) : Except Unit Json :=
  if jsGtNat (jsLengthProp v) 100000 then
    match v with
    | .str s => .ok (.str (s.take 100000))
    | _ => .error ()
  else .ok v

/-- Test for the skip sentinel (part_000 line 231): the value is skipped when
falsy or strictly equal to the literal N/A (the comparison with the empty
string is subsumed by falsiness). -/
def isNASentinel : Option Json → Bool
  | some (.str s) => s == "N/A"
  | _ => false

namespace Unnamed

/-- Transliterates the classification and assignment block of the per-answer
loop (part_000 lines 248 to 464) given the lowercased trimmed title and ref,
the truncated value tv and the original extracted value ov: the first
matching specific branch assigns its field names; otherwise a catch-all
trigger assigns the next unused catch-all slot when one remains; otherwise
the answer is recorded as unmapped with a 50-character preview (substring on
a non-string value raises a TypeError). -/
def applyMapping (st : ATState) (qt qr : String) (tv ov : Json) : Except Unit ATState :=
  match specificFields qt qr with
  | some cols =>
    .ok { st with fields := objSetList st.fields cols (some tv)
                  mappedCount := st.mappedCount + 1 }
  | none =>
    if catchAllTrigger qt qr && decide (st.optIdx < optionalDetailFields.length) then
      .ok { st with fields := objSet st.fields (optionalDetailFields.getD st.optIdx "") (some tv)
                    mappedCount := st.mappedCount + 1
                    optIdx := st.optIdx + 1 }
    else
      match ov with
      | .str s => .ok { st with unmapped := st.unmapped ++ [.str (s.take 50)] }
      | _ => .error ()

/-- Transliterates one iteration of the per-answer forEach of updateAirtable
(part_000 lines 224 to 465): the question title is resolved through the
question map by field id, the ref comes from the answer, the value is
extracted, falsy or N/A values are skipped with the state unchanged, and the
remaining values are truncated and classified. -/
def processAnswer (qm : List (String × Option Json)) (st : ATState) (a : Json) :
    Except Unit ATState :=
  match lcTrim (objLookup qm (jsKeyOf (optChain (jsGet a "field") "id"))) with
  | .error e => .error e
  | .ok qt =>
    match lcTrim (optChain (jsGet a "field") "ref") with
    | .error e => .error e
    | .ok qr =>
      match getAnswerText a with
      | .error e => .error e
      | .ok av =>
        if !jsOptTruthy av || isNASentinel av then .ok st
        else
          match av with
          | none => .ok st
          | some v =>
            match truncate100k v with
            | .error e => .error e
            | .ok tv => applyMapping st qt qr tv v

end Unnamed

namespace Api

/-
Embedding of src/api/webhook.js (the deployed endpoint path).
-/

/-- Transliterates getAnswerText (webhook.js lines 492 to 515); identical to
the part_000 version except that there is no phone_number case, so that kind
falls into the default stringify branch. -/
def getAnswerText (answer : Json) : Except Unit (Option Json) :=
  if !jsTruthy answer then .ok (some .null)
  else
    match jsGet answer "type" with
    | some (.str t) =>
      if t = "text" ∨ t = "email" ∨ t = "url" then .ok (jsGet answer t)
      else if t = "choice" then .ok (optChain (jsGet answer "choice") "label")
      else if t = "choices" then
        match optChain (jsGet answer "choices") "labels" with
        | none => .ok none
        | some l =>
          match l with
          | .null => .ok none
          | .arr ls => .ok (some (.str (String.intercalate ", " (ls.map jsStringElem))))
          | _ => .error ()
      else if t = "number" then
        match jsGet answer "number" with
        | none => .ok none
        | some l =>
          match l with
          | .null => .ok none
          | v => .ok (some (.str (jsString v)))
      else if t = "boolean" then
        .ok (some (.str (if jsOptTruthy (jsGet answer "boolean") then "Yes" else "No")))
      else if t = "date" then .ok (jsGet answer "date")
      else if t = "file_url" then .ok (jsGet answer "file_url")
      else .ok (some (.str (stringify answer)))
    | _ => .ok (some (.str (stringify answer)))

/-- Transliterates one element of the answers insert list (webhook.js lines
120 to 126): the stored question text is the field ref, else the field title,
else the literal Unknown. -/
def mkAnswerRow (sid : Nat) (a : Json) : Except Unit AnswerRow :=
  match getAnswerText a with
  | .error e => .error e
  | .ok at' =>
    .ok { submission_id := sid
          question_id := jsGet2 a "field" "id"
          question_text :=
            jsOr (jsGet2 a "field" "ref")
              (jsOr (jsGet2 a "field" "title") (some (.str "Unknown")))
          answer_text := at'
          answer_type := jsGet a "type" }

/-- Transliterates the answers block of saveToSupabase (webhook.js lines 117
to 138). -/
def answersRows (sid : Nat) (fr : Json) : Except Unit (List AnswerRow) :=
  match jsGet fr "answers" with
  | none => .ok []
  | some j =>
    if !jsTruthy j then .ok []
    else if jsGtNat (jsLengthProp j) 0 then
      match j with
      | .arr as =>
        mapEM (mkAnswerRow sid)
          (as.filter (fun a => jsTruthy a && jsOptTruthy (jsGet a "field")))
      | _ => .error ()
    else .ok []

/-- Transliterates saveToSupabase (webhook.js lines 89 to 142); identical to
the part_000 version except that no question map is built. -/
def saveToSupabase (db : Db) (fr : Json) : Db × Except Unit Nat :=
  match db.submissions.find? (fun s => optJsonBeq s.submission_id (jsGet fr "token")) with
  | some existing => (db, .ok existing.id)
  | none =>
    let sub : SubmissionRow :=
      { id := db.nextId
        form_id := jsGet fr "form_id"
        submission_id := jsGet fr "token"
        submitted_at := jsGet fr "submitted_at"
        raw_data := fr }
    let db1 : Db :=
      { submissions := db.submissions ++ [sub]
        answers := db.answers
        nextId := db.nextId + 1 }
    match answersRows sub.id fr with
    | .error e => (db1, .error e)
    | .ok rows => ({ db1 with answers := db1.answers ++ rows }, .ok sub.id)

/-- Transliterates the classifier chain of updateAirtable (webhook.js lines
220 to 422) as an ordered list, one entry per else-if branch in source order;
this revision has conjunctive tell-us-more branches instead of catch-all
slots. -/
def catalog : List (Rule × List String) :=
  [ (.anyOf ["full name", "your name", "name"], ["Full Name", "Name"]),
    (.anyOf ["email", "e-mail", "email address"], ["Email Address", "Email"]),
    (.anyOf ["mobile", "phone", "whatsapp", "contact number"], ["Mobile Number"]),
    (.anyOf ["age group", "age range", "how old"], ["Age Group"]),
    (.anyOf ["where do you currently live", "current location", "living in"], ["Current Location"]),
    (.anyOf ["current profession", "occupation", "what do you do"], ["Current Profession"]),
    (.anyOf ["household income", "annual income", "family income"], ["Household Income"]),
    (.anyOf ["household size", "family size", "how many people"], ["Household Size"]),
    (.anyOf ["exploring this purchase", "how long", "timeline"], ["Purchase Duration"]),
    (.anyOf ["buying journey", "purchase stage", "where are you"], ["Buying Journey Stage"]),
    (.anyOf ["properties have you purchased", "bought before", "previous purchases"], ["Properties Purchased Before"]),
    (.anyOf ["prompting this property search", "why now", "what prompted"], ["Purchase Prompt"]),
    (.anyOf ["dream property", "ideal investment", "perfect property"], ["Dream Property Description"]),
    (.anyOf ["preferred location", "where would you like", "location preference"], ["Preferred Locations"]),
    (.anyOf ["main intention behind this investment", "investment goal", "why invest"], ["Investment Intention"]),
    (.anyOf ["inspires this investment", "what inspires", "motivation"], ["Investment Inspiration"]),
    (.andAny ["tell us more"] ["investment"], ["Investment Details"]),
    (.anyOf ["vibe are you looking", "atmosphere", "what vibe"], ["Preferred Vibe"]),
    (.anyOf ["asset type", "property type", "type of property"], ["Asset Type"]),
    (.anyOf ["budget range", "price range", "how much"], ["Budget Range"]),
    (.anyOf ["ownership structure", "how own", "ownership type"], ["Ownership Structure"]),
    (.anyOf ["possession timeline", "when move in", "possession date"], ["Possession Timeline"]),
    (.anyOf ["close the deal", "purchase timeline", "when buy"], ["Deal Closure Timeline"]),
    (.anyOf ["management model", "property management", "manage property"], ["Management Model"]),
    (.anyOf ["funding preference", "payment", "financing"], ["Funding Preference"]),
    (.andAny ["matters most"] ["location"], ["Location Priorities"]),
    (.anyOf ["climate do you", "weather preference", "climate preference"], ["Preferred Climate"]),
    (.anyOf ["type of area", "urban", "rural", "area preference"], ["Area Type Preference"]),
    (.anyOf ["too far", "distance", "how far"], ["Distance Tolerance"]),
    (.andAny ["tell us more"] ["location"], ["Location Details"]),
    (.anyOf ["community setup", "type of community", "community type"], ["Community Setup"]),
    (.anyOf ["community be friendly", "friendly for", "suitable for"], ["Community Friendly For"]),
    (.anyOf ["natural features", "nature", "natural surroundings"], ["Natural Features"]),
    (.anyOf ["terrain", "topography", "land type"], ["Terrain Preference"]),
    (.anyOf ["preferred views", "view preference", "what views"], ["Preferred Views"]),
    (.anyOf ["outdoor amenities", "outdoor facilities", "outdoor features"], ["Outdoor Amenities"]),
    (.andAny ["tell us more"] ["amenities"], ["Amenities Details"]),
    (.anyOf ["unit configuration", "bedrooms", "bhk", "rooms"], ["Unit Configuration"]),
    (.anyOf ["facing direction", "vastu", "which direction"], ["House Facing Direction"]),
    (.anyOf ["furnishing level", "furnished", "furnishing"], ["Furnishing Level"]),
    (.anyOf ["interior style", "design style", "aesthetic"], ["Interior Style"]),
    (.anyOf ["smart home", "automation", "smart features"], ["Smart Home Preferences"]),
    (.anyOf ["must-have features", "essential features", "must have"], ["Must Have Features"]),
    (.andAny ["tell us more"] ["home"], ["Home Details"]),
    (.anyOf ["where did you hear", "hear about us", "how did you find", "referral"], ["Referral Source"]),
    (.anyOf ["tell us anything else", "additional", "anything else", "comments"], ["Additional Notes"]) ]

/-- Result of the webhook.js classifier chain by first match. -/
def specificFields (qt qr : String) : Option (List String) :=
  match catalog.find? (fun e => ruleMatches qt qr e.1) with
  | some e => some e.2
  | none => none

/-- Transliterates the classification and unmapped-tracking block of the
per-answer loop (webhook.js lines 220 to 437); this revision has no
catch-all slots. -/
def applyMapping (st : ATState) (qt qr : String) (tv ov : Json) : Except Unit ATState :=
  match specificFields qt qr with
  | some cols =>
    .ok { st with fields := objSetList st.fields cols (some tv)
                  mappedCount := st.mappedCount + 1 }
  | none =>
    match ov with
    | .str s => .ok { st with unmapped := st.unmapped ++ [.str (s.take 50)] }
    | _ => .error ()

/-- Transliterates one iteration of the per-answer forEach of updateAirtable
(webhook.js lines 195 to 437): in this revision the question title is read
directly from the answer field title. -/
def processAnswer (st : ATState) (a : Json) : Except Unit ATState :=
  match lcTrim (optChain (jsGet a "field") "title") with
  | .error e => .error e
  | .ok qt =>
    match lcTrim (optChain (jsGet a "field") "ref") with
    | .error e => .error e
    | .ok qr =>
      match getAnswerText a with
      | .error e => .error e
      | .ok av =>
        if !jsOptTruthy av || isNASentinel av then .ok st
        else
          match av with
          | none => .ok st
          | some v =>
            match truncate100k v with
            | .error e => .error e
            | .ok tv => applyMapping st qt qr tv v

/-- Transliterates the answers binding (webhook.js line 162): a falsy answers
value defaults to the empty list; a truthy non-array raises a TypeError at
the following forEach. -/
def getAnswersList (fr : Json) : Except Unit (List Json) :=
  match jsGet fr "answers" with
  | none => .ok []
  | some j =>
    if !jsTruthy j then .ok []
    else
      match j with
      | .arr as => .ok as
      | _ => .error ()

/-- Transliterates the debug logging pass (webhook.js lines 167 to 176): for
every answer the extractor runs and its result feeds an optional-chained
substring, which raises a TypeError on a defined non-null non-string
result. -/
def debugPass (answers : List Json) : Except Unit Unit :=
  foldE (fun _ a =>
    match getAnswerText a with
    | .error e => .error e
    | .ok none => .ok ()
    | .ok (some .null) => .ok ()
    | .ok (some (.str _)) => .ok ()
    | .ok (some _) => .error ()) () answers

/-- The form name cell (webhook.js line 182). -/
def formName (fr : Json) : Json :=
  match jsOr (optChain (jsGet fr "definition") "title") (some (.str "Unknown")) with
  | some v => v
  | none => .str "Unknown"

/-- Transliterates the base fields literal (webhook.js lines 179 to 188),
with the optional deep link added when the store URL is configured. -/
def baseFields (supabaseUrl : Option String) (fr : Json) : List (String × Option Json) :=
  let base : List (String × Option Json) :=
    [("Submission ID", jsGet fr "token"),
     ("Submitted At", jsGet fr "submitted_at"),
     ("Form Name", some (formName fr)),
     ("Status", some (.str "New"))]
  match supabaseUrl with
  | some u => if u != "" then base ++ [("View Data", some (.str (u ++ "/project/default/editor")))] else base
  | none => base

/-- Transliterates the record construction of updateAirtable (webhook.js
lines 162 to 457), after the existence query found no record: the fields of
the projected record that would be posted. -/
def buildRecordFields (supabaseUrl : Option String) (fr : Json) :
    Except Unit (List (String × Option Json)) :=
  match getAnswersList fr with
  | .error e => .error e
  | .ok answers =>
    match debugPass answers with
    | .error e => .error e
    | .ok _ =>
      match foldE processAnswer
        { fields := baseFields supabaseUrl fr, mappedCount := 0, unmapped := [], optIdx := 0 }
        answers with
      | .error e => .error e
      | .ok st => .ok st.fields

end Api

/-
Orchestrator: the exported handler function, identical in both revisions
(lines 9 to 86 of each file). The two external collaborators are passed as
parameters: save is the durable store writer (the try-catch around
saveToSupabase maps a throw to the 500 database-save-failed response) and
mirror is the secondary mirror writer (the try-catch around updateAirtable
swallows any outcome). The signature primitive is passed as the verify
parameter together with the flag saying whether a signing secret is
configured.
-/

structure Req where
  method : String
  signatureHeader : Option String
  body : Json

/-- The signature gate (lines 17 to 23 of both files): when a signing secret
is configured, the request is rejected unless a non-empty signature header is
present and the verification primitive accepts it. -/
def signatureRejects (verify : Json → String → Bool) (secretConfigured : Bool) (req : Req) : Bool :=
  secretConfigured &&
    !(match req.signatureHeader with
      | none => false
      | some s => s != "" && verify req.body s)

inductive HandlerResp where
  | methodNotAllowed
  | unauthorized
  | payloadTooLarge
  | invalidPayload
  | missingFields
  | dbSaveFailed
  | ok : Json → HandlerResp
  | internalError

/-- Transliterates the exported handler (lines 9 to 86 of both files). The
store is threaded through save; the response carries the echoed submission
token on success. The final catch-all branch (internalError) is unreachable
in the model because every throwing step is already guarded by an inner
try-catch in the source. -/
def handler (save : Db → Json → Db × Except Unit Nat)
    (mirror : Json → Nat → Except Unit Unit)
    (verify : Json → String → Bool)
    (secretConfigured : Bool) (db : Db) (req : Req) : Db × HandlerResp :=
  if req.method != "POST" then (db, .methodNotAllowed)
  else if signatureRejects verify secretConfigured req then (db, .unauthorized)
  else if (stringify req.body).length > 4 * 1024 * 1024 then
    (db, .payloadTooLarge)
  else if !jsTruthy req.body || !jsOptTruthy (jsGet req.body "form_response") then
    (db, .invalidPayload)
  else
    match jsGet req.body "form_response" with
    | none => (db, .invalidPayload)
    | some fr =>
      match jsGet fr "token", jsGet fr "form_id" with
      | some tok, some fid =>
        if !jsTruthy tok || !jsTruthy fid then (db, .missingFields)
        else
          match save db fr with
          | (db', .error _) => (db', .dbSaveFailed)
          | (db', .ok sid) =>
            match mirror fr sid with
            | .error _ => (db', .ok tok)
            | .ok _ => (db', .ok tok)
      | _, _ => (db, .missingFields)

/-- The answer kinds given a dedicated case by the part_000 extractor. -/
def knownKinds : List String :=
  ["text", "email", "url", "choice", "choices", "number", "boolean", "date", "file_url",
   "phone_number"]

/-- Classification of an answer record as being of an unrecognized kind: its
type field is absent, not a string, or a string outside the known kind set,
so that the switch falls through to the default branch. -/
def unrecognizedKind (a : Json) : Bool :=
  match jsGet a "type" with
  | some (.str t) => !(knownKinds.contains t)
  | _ => true

/-- The one failing shape of the extractor input: a truthy answer of kind
choices whose choices.labels value is defined, non-null and not an array, so
that labels.join is not a function and a TypeError is thrown. -/
def choicesLabelsBad (a : Json) : Bool :=
  jsTruthy a &&
    (match jsGet a "type" with
     | some (.str t) => t == "choices"
     | _ => false) &&
    (match optChain (jsGet a "choices") "labels" with
     | none => false
     | some .null => false
     | some (.arr _) => false
     | some _ => true)

/-
Concrete values used by the scenario theorems and witnesses below.
-/

/-- The empty durable store. -/
def db0 : Db := { submissions := [], answers := [], nextId := 0 }

/-- The scenario event of the specification: token abc123, form F1, one
email answer titled Your Email. -/
def fr9 : Json :=
  .obj [("token", .str "abc123"), ("form_id", .str "F1"),
        ("answers", .arr [ .obj [("field", .obj [("title", .str "Your Email")]),
                                 ("type", .str "email"), ("email", .str "a@b.com")] ])]

/-- A POST request delivering the scenario event without a signature. -/
def req9 : Req := { method := "POST", signatureHeader := none, body := .obj [("form_response", fr9)] }

/-- The durable store after the scenario event is persisted by the webhook.js
writer. -/
def db9 : Db :=
  { submissions := [{ id := 0, form_id := some (.str "F1"),
                      submission_id := some (.str "abc123"),
                      submitted_at := none, raw_data := fr9 }],
    answers := [{ submission_id := 0, question_id := none,
                  question_text := some (.str "Your Email"),
                  answer_text := some (.str "a@b.com"),
                  answer_type := some (.str "email") }],
    nextId := 1 }

/-- The projected record fields built from the scenario event by the
webhook.js mirror writer. -/
def flds9 : List (String × Option Json) :=
  [("Submission ID", some (.str "abc123")), ("Submitted At", none),
   ("Form Name", some (.str "Unknown")), ("Status", some (.str "New")),
   ("Email Address", some (.str "a@b.com")), ("Email", some (.str "a@b.com"))]

/-- An event carrying one text answer whose extracted value is the empty
string. -/
def frEmpty : Json :=
  .obj [("token", .str "t"),
        ("answers", .arr [ .obj [("field", .obj [("id", .str "q1")]),
                                 ("type", .str "text"), ("text", .str "")] ])]

/-- An event whose single answer has an inline field title but no embedded
definition entry and no ref. -/
def frInline : Json :=
  .obj [("token", .str "t"),
        ("answers", .arr [ .obj [("field", .obj [("id", .str "q9"), ("title", .str "Inline Label")]),
                                 ("type", .str "text"), ("text", .str "hello")] ])]

/-- An answer of kind choices whose labels value is a number: labels.join is
not a function, so the extractor throws. -/
def badChoicesAnswer : Json :=
  .obj [("type", .str "choices"), ("choices", .obj [("labels", .num 5)])]

/-- An answer of an unrecognized kind. -/
def unknownKindAnswer : Json := .obj [("type", .str "zzz")]

/-
Helper lemmas.
-/

mutual
theorem jsonBeq_refl : ∀ j : Json, jsonBeq j j = true
  | .null => rfl
  | .bool b => by cases b <;> rfl
  | .num n => by simp [jsonBeq]
  | .str s => by simp [jsonBeq]
  | .arr xs => by simp [jsonBeq, jsonBeqList_refl xs]
  | .obj fs => by simp [jsonBeq, jsonBeqFields_refl fs]

theorem jsonBeqList_refl : ∀ l : List Json, jsonBeqList l l = true
  | [] => rfl
  | a :: as => by simp [jsonBeqList, jsonBeq_refl a, jsonBeqList_refl as]

theorem jsonBeqFields_refl : ∀ l : List (String × Json), jsonBeqFields l l = true
  | [] => rfl
  | (k, v) :: as => by simp [jsonBeqFields, jsonBeq_refl v, jsonBeqFields_refl as]
end

theorem optJsonBeq_refl (o : Option Json) : optJsonBeq o o = true := by
  cases o with
  | none => rfl
  | some j => simpa [optJsonBeq] using jsonBeq_refl j

theorem find?_append_of_none {α} (l l' : List α) (p : α → Bool) (h : l.find? p = none) :
    (l ++ l').find? p = l'.find? p := by
  induction l with
  | nil => simp
  | cons a as ih =>
    cases hp : p a with
    | true =>
      rw [List.find?_cons_of_pos _ hp] at h
      exact absurd h (by simp)
    | false =>
      rw [List.find?_cons_of_neg _ (by simp [hp])] at h
      rw [List.cons_append, List.find?_cons_of_neg _ (by simp [hp])]
      exact ih h

theorem find?_of_first {α} (l : List α) (p : α → Bool) (i : Nat) (hi : i < l.length)
    (h : p (l.get ⟨i, hi⟩) = true)
    (hj : ∀ j (hji : j < i), p (l.get ⟨j, Nat.lt_trans hji hi⟩) = false) :
    l.find? p = some (l.get ⟨i, hi⟩) := by
  induction l generalizing i with
  | nil => exact absurd hi (Nat.not_lt_zero i)
  | cons a as ih =>
    cases i with
    | zero =>
      have ha : p a = true := by simpa [List.get] using h
      simpa [List.get] using List.find?_cons_of_pos as ha
    | succ n =>
      have ha : p a = false := by
        simpa [List.get] using hj 0 (Nat.succ_pos n)
      rw [List.find?_cons_of_neg _ (by simp [ha])]
      simpa [List.get] using ih n (Nat.lt_of_succ_lt_succ hi) (by simpa [List.get] using h)
        (fun j hji => by simpa [List.get] using hj (j + 1) (Nat.succ_lt_succ hji))

theorem objLookup_objSet_self (m : List (String × Option Json)) (k : String) (v : Option Json) :
    objLookup (objSet m k v) k = v := by
  induction m with
  | nil => simp [objSet, objLookup, List.find?]
  | cons kv rest ih =>
    obtain ⟨k', v'⟩ := kv
    by_cases hk : k' = k
    · simp [objSet, hk, objLookup, List.find?]
    · simp only [objSet, if_neg hk]
      rw [objLookup, List.find?_cons]
      have : (k' == k) = false := by simpa using hk
      simp only [this]
      exact ih

theorem objLookup_objSet_ne (m : List (String × Option Json)) (k k' : String)
    (v : Option Json) (hne : k ≠ k') :
    objLookup (objSet m k v) k' = objLookup m k' := by
  induction m with
  | nil =>
    simp [objSet, objLookup, List.find?, show (k == k') = false by simpa using hne]
  | cons kv rest ih =>
    obtain ⟨k0, v0⟩ := kv
    by_cases hk : k0 = k
    · subst hk
      simp [objSet, objLookup, List.find?, show (k0 == k') = false by simpa using hne]
    · simp only [objSet, if_neg hk]
      rw [objLookup, List.find?_cons, objLookup, List.find?_cons]
      cases h0 : (k0 == k') with
      | true => rfl
      | false => exact ih

theorem objLookup_objSetList_not_mem (ks : List String) (m : List (String × Option Json))
    (v : Option Json) (k : String) (hk : k ∉ ks) :
    objLookup (objSetList m ks v) k = objLookup m k := by
  induction ks generalizing m with
  | nil => rfl
  | cons k0 rest ih =>
    rw [objSetList]
    have hk0 : k0 ≠ k := fun h => hk (h ▸ List.mem_cons_self k0 rest)
    rw [ih (objSet m k0 v) (fun h => hk (List.mem_cons_of_mem k0 h)),
      objLookup_objSet_ne m k0 k v hk0]

theorem objLookup_objSetList_mem (ks : List String) (m : List (String × Option Json))
    (v : Option Json) (k : String) (hk : k ∈ ks) :
    objLookup (objSetList m ks v) k = v := by
  induction ks generalizing m with
  | nil => exact absurd hk (List.not_mem_nil k)
  | cons k0 rest ih =>
    rw [objSetList]
    by_cases hmem : k ∈ rest
    · exact ih (objSet m k0 v) hmem
    · have hk0 : k = k0 := by
        rcases List.mem_cons.mp hk with h | h
        · exact h
        · exact absurd h hmem
      subst hk0
      rw [objLookup_objSetList_not_mem rest (objSet m k v) v k hmem,
        objLookup_objSet_self]

theorem filter_singleton_of_none {α} (l : List α) (x : α) (p : α → Bool)
    (h : l.find? p = none) (hx : p x = true) :
    ((l ++ [x]).filter p).length = 1 := by
  rw [List.filter_append]
  have hnil : l.filter p = [] := by
    rw [List.filter_eq_nil_iff]
    intro a ha
    exact (List.find?_eq_none.mp h) a ha
  rw [hnil]
  simp [List.filter, hx]

/-- C1: if a Submission with the same submissionId already exists in the
durable store, the store writer returns the existing store identity and
performs no insert of a Submission or of any Answer rows (the store is
returned unchanged); and after a first successful processing of an event
into an empty slot, a second sequential call returns the same identity,
changes nothing, and exactly one Submission row carries that idempotency
key. -/
theorem c1_idempotent_store (db : Db) (fr : Json) :
    (∀ r, db.submissions.find? (fun s => optJsonBeq s.submission_id (jsGet fr "token")) = some r →
      Unnamed.saveToSupabase db fr = (db, Except.ok r.id))
    ∧ (db.submissions.find? (fun s => optJsonBeq s.submission_id (jsGet fr "token")) = none →
      ∀ db1 id1, Unnamed.saveToSupabase db fr = (db1, Except.ok id1) →
        Unnamed.saveToSupabase db1 fr = (db1, Except.ok id1)
        ∧ (db1.submissions.filter
            (fun s => optJsonBeq s.submission_id (jsGet fr "token"))).length = 1) := by
  constructor
  · intro r hr
    simp only [Unnamed.saveToSupabase, hr]
  · intro h db1 id1 hsave
    simp only [Unnamed.saveToSupabase, h] at hsave
    cases hqm : Unnamed.buildQuestionMap fr with
    | error e =>
      simp only [hqm] at hsave
      rw [Prod.mk.injEq] at hsave
      exact absurd hsave.2 (fun hab => Except.noConfusion hab)
    | ok qm =>
      simp only [hqm] at hsave
      cases har : Unnamed.answersRows qm db.nextId fr with
      | error e =>
        simp only [har] at hsave
        rw [Prod.mk.injEq] at hsave
        exact absurd hsave.2 (fun hab => Except.noConfusion hab)
      | ok rows =>
        simp only [har] at hsave
        rw [Prod.mk.injEq] at hsave
        obtain ⟨hdb, hok⟩ := hsave
        have hid : id1 = db.nextId := by
          cases hok
          rfl
        subst hid
        subst hdb
        have hfind :
            (db.submissions ++
              [({ id := db.nextId, form_id := jsGet fr "form_id",
                  submission_id := jsGet fr "token",
                  submitted_at := jsGet fr "submitted_at", raw_data := fr } : SubmissionRow)]).find?
              (fun s => optJsonBeq s.submission_id (jsGet fr "token")) =
            some ({ id := db.nextId, form_id := jsGet fr "form_id",
                    submission_id := jsGet fr "token",
                    submitted_at := jsGet fr "submitted_at", raw_data := fr } : SubmissionRow) := by
          rw [find?_append_of_none _ _ _ h]
          exact List.find?_cons_of_pos _ (optJsonBeq_refl (jsGet fr "token"))
        constructor
        · simp only [Unnamed.saveToSupabase, hfind]
        · exact filter_singleton_of_none _ _ _ h (optJsonBeq_refl (jsGet fr "token"))

/-- Witness for C1 at a concrete event: the empty store accepts the event
once, and the second sequential call returns the same identity on an
unchanged store with exactly one matching Submission row. -/
theorem c1_idempotent_store_witness :
    Unnamed.saveToSupabase
        { submissions := [{ id := 0, form_id := none, submission_id := some (.str "t1"),
                            submitted_at := none, raw_data := .obj [("token", .str "t1")] }],
          answers := [], nextId := 1 }
        (.obj [("token", .str "t1")]) =
      ({ submissions := [{ id := 0, form_id := none, submission_id := some (.str "t1"),
                           submitted_at := none, raw_data := .obj [("token", .str "t1")] }],
         answers := [], nextId := 1 }, Except.ok 0) := by
  have h := (c1_idempotent_store { submissions := [], answers := [], nextId := 0 }
    (.obj [("token", .str "t1")])).2 rfl
    { submissions := [{ id := 0, form_id := none, submission_id := some (.str "t1"),
                        submitted_at := none, raw_data := .obj [("token", .str "t1")] }],
      answers := [], nextId := 1 } 0 rfl
  exact h.1

theorem jsTruthy_of_jsGet (b : Json) (k : String) (v : Json) (h : jsGet b k = some v) :
    jsTruthy b = true := by
  cases b <;> simp_all [jsGet, jsTruthy]

/-- C2: once the durable store write has succeeded for a validated event,
the handler responds with the success outcome echoing the submission token,
for every possible behaviour of the mirror stage; the mirror outcome never
changes the response and never changes the persisted store state. -/
theorem c2_mirror_isolation
    (save : Db → Json → Db × Except Unit Nat)
    (mirror mirror' : Json → Nat → Except Unit Unit)
    (verify : Json → String → Bool) (sc : Bool) (db : Db) (req : Req)
    (fr tok fid : Json) (db' : Db) (sid : Nat)
    (hm : req.method = "POST")
    (hauth : signatureRejects verify sc req = false)
    (hsize : ¬((stringify req.body).length > 4 * 1024 * 1024))
    (hfr : jsGet req.body "form_response" = some fr)
    (hfrT : jsTruthy fr = true)
    (htok : jsGet fr "token" = some tok) (htokT : jsTruthy tok = true)
    (hfid : jsGet fr "form_id" = some fid) (hfidT : jsTruthy fid = true)
    (hsave : save db fr = (db', Except.ok sid)) :
    handler save mirror verify sc db req = (db', HandlerResp.ok tok)
    ∧ handler save mirror' verify sc db req = handler save mirror verify sc db req := by
  have hb : jsTruthy req.body = true := jsTruthy_of_jsGet _ _ _ hfr
  have hrun : ∀ m : Json → Nat → Except Unit Unit,
      handler save m verify sc db req = (db', HandlerResp.ok tok) := by
    intro m
    simp only [handler, hm, hauth, if_neg hsize, hfr, hb, hfrT, htok, hfid, htokT, hfidT,
      jsOptTruthy, hsave, bne_self_eq_false, Bool.false_eq_true, if_false, Bool.not_true,
      Bool.or_self, Bool.false_or, Bool.or_false]
    cases hmv : m fr sid <;> simp [hmv]
  exact ⟨hrun mirror, (hrun mirror').trans (hrun mirror).symm⟩

/-- Witness for C2: the scenario event is persisted by the webhook.js store
writer, and the handler answers success with the echoed token both under a
mirror that always throws and under one that succeeds, with identical
results. -/
theorem c2_mirror_isolation_witness :
    handler Api.saveToSupabase (fun _ _ => Except.error ()) (fun _ _ => false) false db0 req9 =
      (db9, HandlerResp.ok (.str "abc123"))
    ∧ handler Api.saveToSupabase (fun _ _ => Except.ok ()) (fun _ _ => false) false db0 req9 =
      handler Api.saveToSupabase (fun _ _ => Except.error ()) (fun _ _ => false) false db0 req9 := by
  have h := c2_mirror_isolation Api.saveToSupabase
    (fun _ _ => Except.error ()) (fun _ _ => Except.ok ()) (fun _ _ => false) false db0 req9
    fr9 (.str "abc123") (.str "F1") db9 0
    rfl rfl (by decide) rfl rfl rfl rfl rfl rfl rfl
  exact ⟨h.1, h.2⟩

/-- C7: a request whose serialized payload exceeds the four-mebibyte ceiling
is rejected with the payload-too-large outcome before the store writer or the
mirror writer runs: the result holds for every store writer and every mirror,
and the store is returned unchanged. -/
theorem c7_size_ceiling
    (save : Db → Json → Db × Except Unit Nat)
    (mirror : Json → Nat → Except Unit Unit)
    (verify : Json → String → Bool) (sc : Bool) (db : Db) (req : Req)
    (hm : req.method = "POST")
    (hauth : signatureRejects verify sc req = false)
    (hsize : (stringify req.body).length > 4 * 1024 * 1024) :
    handler save mirror verify sc db req = (db, HandlerResp.payloadTooLarge) := by
  simp only [handler, hm, hauth, bne_self_eq_false, Bool.false_eq_true, if_false,
    if_pos hsize]

theorem escList_replicate_a (n : Nat) :
    escList (List.replicate n 'a') = List.replicate n 'a' := by
  induction n with
  | zero => rfl
  | succ m ih => simp [List.replicate, escList, escChar, ih]

theorem stringify_str_length (s : String) :
    (stringify (.str s)).length = (escList s.data).length + 2 := by
  show ("\"" ++ escape s ++ "\"").length = (escList s.data).length + 2
  rw [String.length_append, String.length_append]
  simp [escape, String.length]
  omega

/-- Witness for C7: a concrete POST request with no signing configured whose
body is a string of four mebibytes of the letter a (serialized length two
larger) is answered with payload-too-large on the untouched empty store,
under the part_000 store writer and a throwing mirror. -/
theorem c7_size_ceiling_witness :
    handler Unnamed.saveToSupabase (fun _ _ => Except.error ()) (fun _ _ => false) false db0
      { method := "POST", signatureHeader := none,
        body := .str (String.mk (List.replicate (4 * 1024 * 1024) 'a')) } =
    (db0, HandlerResp.payloadTooLarge) := by
  apply c7_size_ceiling Unnamed.saveToSupabase (fun _ _ => Except.error ())
    (fun _ _ => false) false db0 _ rfl rfl
  rw [stringify_str_length]
  have hdata : (String.mk (List.replicate (4 * 1024 * 1024) 'a')).data =
      List.replicate (4 * 1024 * 1024) 'a' := rfl
  rw [hdata, escList_replicate_a, List.length_replicate]
  omega

theorem toDigitsCore_length_ge (b : Nat) :
    ∀ (f n : Nat) (l : List Char), l.length ≤ (Nat.toDigitsCore b f n l).length := by
  intro f
  induction f with
  | zero => intro n l; simp [Nat.toDigitsCore]
  | succ f ih =>
    intro n l
    simp only [Nat.toDigitsCore]
    by_cases h : n / b = 0
    · simp [h]
    · simp only [h, if_false]
      calc l.length ≤ (Nat.digitChar (n % b) :: l).length := by simp
        _ ≤ _ := ih (n / b) (Nat.digitChar (n % b) :: l)

theorem toDigits_length_pos (b n : Nat) : 0 < (Nat.toDigits b n).length := by
  show 0 < (Nat.toDigitsCore b (n + 1) n []).length
  simp only [Nat.toDigitsCore]
  by_cases h : n / b = 0
  · simp [h]
  · simp only [h, if_false]
    calc 0 < (Nat.digitChar (n % b) :: ([] : List Char)).length := by simp
      _ ≤ _ := toDigitsCore_length_ge b n (n / b) _

theorem nat_repr_length_pos (n : Nat) : 0 < (Nat.repr n).length := by
  show 0 < (Nat.toDigits 10 n).asString.length
  have : (Nat.toDigits 10 n).asString.length = (Nat.toDigits 10 n).length := rfl
  rw [this]
  exact toDigits_length_pos 10 n

theorem int_toString_length_pos (n : Int) : 0 < (toString n).length := by
  show 0 < (Int.repr n).length
  cases n with
  | ofNat m => exact nat_repr_length_pos m
  | negSucc m =>
    show 0 < ("-" ++ Nat.repr (m + 1)).length
    rw [String.length_append]
    have := nat_repr_length_pos (m + 1)
    omega

theorem stringify_ne_empty (j : Json) : stringify j ≠ "" := by
  have hpos : 0 < (stringify j).length := by
    cases j with
    | null => decide
    | bool b => cases b <;> decide
    | num n => exact int_toString_length_pos n
    | str s =>
      show 0 < ("\"" ++ escape s ++ "\"").length
      rw [String.length_append, String.length_append]
      have hq : ("\"" : String).length = 1 := rfl
      omega
    | arr xs =>
      show 0 < ("[" ++ stringifyItems xs ++ "]").length
      rw [String.length_append, String.length_append]
      have hb : ("[" : String).length = 1 := rfl
      omega
    | obj fs =>
      show 0 < ("\x7b" ++ stringifyFields fs ++ "\x7d").length
      rw [String.length_append, String.length_append]
      have hb : ("\x7b" : String).length = 1 := rfl
      omega
  intro he
  rw [he] at hpos
  exact absurd hpos (by decide)

/-- Counterexample for C3: the extractor is not total on every input answer
record. On a truthy answer of defined kind choices whose labels value is the
number five, labels.join is not a function, so getAnswerText throws a
TypeError instead of returning. -/
theorem c3_extractor_counterexample :
    Unnamed.getAnswerText badChoicesAnswer = Except.error () := rfl


/-- C3 as amended: the extractor returns without error for every answer
except the choices-with-non-array-labels shape, and only that shape throws;
for each defined kind whose value is present it returns a non-null string
(strings pass through, choice labels pass through, label arrays join to a
string, numbers and booleans render to strings, a non-empty phone number
passes through); and for an unrecognized kind it returns the non-empty JSON
serialization of the whole answer structure. -/
theorem c3_extractor_amended (a : Json) :
    (Unnamed.getAnswerText a = Except.error () → choicesLabelsBad a = true)
    ∧ (choicesLabelsBad a = false → ∃ r, Unnamed.getAnswerText a = Except.ok r)
    ∧ (jsTruthy a = true → unrecognizedKind a = true →
        Unnamed.getAnswerText a = Except.ok (some (.str (stringify a))) ∧ stringify a ≠ "")
    ∧ (∀ k, k ∈ (["text", "email", "url", "date", "file_url"] : List String) →
        jsTruthy a = true → jsGet a "type" = some (.str k) →
        ∀ s, jsGet a k = some (.str s) →
        Unnamed.getAnswerText a = Except.ok (some (.str s)))
    ∧ (jsTruthy a = true → jsGet a "type" = some (.str "choice") →
        ∀ s, optChain (jsGet a "choice") "label" = some (.str s) →
        Unnamed.getAnswerText a = Except.ok (some (.str s)))
    ∧ (jsTruthy a = true → jsGet a "type" = some (.str "choices") →
        ∀ ls, optChain (jsGet a "choices") "labels" = some (.arr ls) →
        ∃ s, Unnamed.getAnswerText a = Except.ok (some (.str s)))
    ∧ (jsTruthy a = true → jsGet a "type" = some (.str "number") →
        ∀ n : Int, jsGet a "number" = some (.num n) →
        Unnamed.getAnswerText a = Except.ok (some (.str (toString n))))
    ∧ (jsTruthy a = true → jsGet a "type" = some (.str "boolean") →
        ∃ s, Unnamed.getAnswerText a = Except.ok (some (.str s)))
    ∧ (jsTruthy a = true → jsGet a "type" = some (.str "phone_number") →
        ∀ s, jsGet a "phone_number" = some (.str s) → s ≠ "" →
        Unnamed.getAnswerText a = Except.ok (some (.str s))) := by
  have htotal : choicesLabelsBad a = false → ∃ r, Unnamed.getAnswerText a = Except.ok r := by
    intro hbad
    unfold Unnamed.getAnswerText
    by_cases ht : jsTruthy a
    · simp only [ht, Bool.not_true, Bool.false_eq_true, if_false]
      split
      case _ t hty =>
        split_ifs with h1 h2 h3 h4 h5 h6 h7 h8
        · exact ⟨_, rfl⟩
        · exact ⟨_, rfl⟩
        · subst h3
          rcases hl : optChain (jsGet a "choices") "labels" with _ | l
          · simp only [hl]; exact ⟨_, rfl⟩
          · simp only [hl]
            cases l <;> simp_all [choicesLabelsBad]
        · rcases hn : jsGet a "number" with _ | l
          · simp only [hn]; exact ⟨_, rfl⟩
          · simp only [hn]; cases l <;> exact ⟨_, rfl⟩
        all_goals exact ⟨_, rfl⟩
      case _ => exact ⟨_, rfl⟩
    · simp [ht]
  refine ⟨?_, htotal, ?_, ?_, ?_, ?_, ?_, ?_, ?_⟩
  · intro herr
    by_contra hb
    obtain ⟨r, hr⟩ := htotal (by simpa using hb)
    rw [herr] at hr
    exact Except.noConfusion hr
  · intro ht hun
    refine ⟨?_, stringify_ne_empty a⟩
    unfold Unnamed.getAnswerText
    simp only [ht, Bool.not_true, Bool.false_eq_true, if_false]
    split
    case _ t hty =>
      simp only [unrecognizedKind, hty, knownKinds] at hun
      split_ifs <;> simp_all
    case _ => rfl
  · intro k hk ht hty s hs
    have hcases : k = "text" ∨ k = "email" ∨ k = "url" ∨ k = "date" ∨ k = "file_url" := by
      simpa using hk
    unfold Unnamed.getAnswerText
    rcases hcases with rfl | rfl | rfl | rfl | rfl <;> simp [ht, hty, hs]
  · intro ht hty s hs
    unfold Unnamed.getAnswerText
    simp [ht, hty, hs]
  · intro ht hty ls hls
    unfold Unnamed.getAnswerText
    simp [ht, hty, hls]
  · intro ht hty n hn
    unfold Unnamed.getAnswerText
    simp [ht, hty, hn, jsString]
  · intro ht hty
    unfold Unnamed.getAnswerText
    simp [ht, hty]
  · intro ht hty s hs hne
    have hst : jsTruthy (.str s) = true := by simp [jsTruthy, hne]
    unfold Unnamed.getAnswerText
    simp [ht, hty, hs, jsOr, jsOptTruthy, hst]

/-- Witness for C3 as amended: at the unrecognized-kind answer, the bad shape
is absent, the extractor succeeds, and the result is the non-empty
serialization of the whole record. -/
theorem c3_extractor_amended_witness :
    jsTruthy unknownKindAnswer = true ∧ unrecognizedKind unknownKindAnswer = true ∧
    Unnamed.getAnswerText unknownKindAnswer =
      Except.ok (some (.str (stringify unknownKindAnswer)))
    ∧ stringify unknownKindAnswer ≠ "" :=
  ⟨rfl, rfl, (c3_extractor_amended unknownKindAnswer).2.2.1 rfl rfl⟩

/-- Counterexample for C4: the classifier does not assign at most one target
column name per answer. An answer whose resolved label is the phrase
your email matches the email entry, and the assignment writes the value
under two distinct column names, Email Address and Email. -/
theorem c4_classifier_counterexample :
    Unnamed.applyMapping { fields := [], mappedCount := 0, unmapped := [], optIdx := 0 }
        "your email" "" (.str "a@b.com") (.str "a@b.com") =
      Except.ok { fields := [("Email Address", some (.str "a@b.com")),
                            ("Email", some (.str "a@b.com"))],
                  mappedCount := 1, unmapped := [], optIdx := 0 } := rfl

theorem catalog_cols_bounds :
    ∀ e ∈ Unnamed.catalog, 1 ≤ e.2.length ∧ e.2.length ≤ 2 := by decide

/-- C4 as amended: when the resolved label or reference matches the keyword
rules of two or more catalog entries, the classifier uses exactly the
earliest matching entry of the fixed priority order (first match wins), and
the assignment writes the value under the column names of that one entry:
one column name for every entry except the full-name and email entries,
which write a current and a legacy column, so an answer receives at most two
column names and they always come from a single entry. -/
theorem c4_classifier_amended (qt qr : String) (i : Nat) (hi : i < Unnamed.catalog.length)
    (hmatch : ruleMatches qt qr (Unnamed.catalog.get ⟨i, hi⟩).1 = true)
    (hfirst : ∀ j (hji : j < i),
      ruleMatches qt qr (Unnamed.catalog.get ⟨j, Nat.lt_trans hji hi⟩).1 = false) :
    Unnamed.specificFields qt qr = some (Unnamed.catalog.get ⟨i, hi⟩).2
    ∧ 1 ≤ (Unnamed.catalog.get ⟨i, hi⟩).2.length
    ∧ (Unnamed.catalog.get ⟨i, hi⟩).2.length ≤ 2
    ∧ ∀ st tv ov, Unnamed.applyMapping st qt qr tv ov =
        Except.ok { st with
          fields := objSetList st.fields (Unnamed.catalog.get ⟨i, hi⟩).2 (some tv),
          mappedCount := st.mappedCount + 1 } := by
  have hfind : Unnamed.catalog.find? (fun e => ruleMatches qt qr e.1) =
      some (Unnamed.catalog.get ⟨i, hi⟩) :=
    find?_of_first Unnamed.catalog (fun e => ruleMatches qt qr e.1) i hi hmatch hfirst
  have hspec : Unnamed.specificFields qt qr = some (Unnamed.catalog.get ⟨i, hi⟩).2 := by
    simp only [Unnamed.specificFields, hfind]
  have hbounds := catalog_cols_bounds (Unnamed.catalog.get ⟨i, hi⟩) (Unnamed.catalog.get_mem i hi)
  refine ⟨hspec, hbounds.1, hbounds.2, ?_⟩
  intro st tv ov
  simp only [Unnamed.applyMapping, hspec]

/-- Witness for C4 as amended: the label investment goal location preference
matches both the preferred-locations entry (index 13) and the
investment-intention entry (index 14); the classifier resolves it to the
earlier entry, Preferred Locations. -/
theorem c4_classifier_amended_witness :
    Unnamed.specificFields "investment goal location preference" "" =
      some ["Preferred Locations"]
    ∧ ruleMatches "investment goal location preference" ""
        (Unnamed.catalog.get ⟨14, by decide⟩).1 = true := by
  have h := c4_classifier_amended "investment goal location preference" "" 13 (by decide)
    (by decide) (by decide)
  exact ⟨h.1, by decide⟩

theorem applyMapping_optIdx_mono (st : ATState) (qt qr : String) (tv ov : Json)
    (st' : ATState) (h : Unnamed.applyMapping st qt qr tv ov = Except.ok st') :
    st.optIdx ≤ st'.optIdx := by
  unfold Unnamed.applyMapping at h
  split at h
  · cases h
    exact Nat.le_refl _
  · split_ifs at h
    · cases h
      exact Nat.le_succ _
    · split at h
      · cases h
        exact Nat.le_refl _
      · exact Except.noConfusion h

theorem processAnswer_optIdx_mono (qm : List (String × Option Json)) (st : ATState) (a : Json)
    (st' : ATState) (h : Unnamed.processAnswer qm st a = Except.ok st') :
    st.optIdx ≤ st'.optIdx := by
  unfold Unnamed.processAnswer at h
  split at h
  · exact Except.noConfusion h
  · split at h
    · exact Except.noConfusion h
    · split at h
      · exact Except.noConfusion h
      · split_ifs at h
        · cases h
          exact Nat.le_refl _
        · split at h
          · cases h
            exact Nat.le_refl _
          · split at h
            · exact Except.noConfusion h
            · exact applyMapping_optIdx_mono _ _ _ _ _ _ h

theorem foldE_optIdx_mono (qm : List (String × Option Json)) (as : List Json) :
    ∀ (st st' : ATState), foldE (Unnamed.processAnswer qm) st as = Except.ok st' →
      st.optIdx ≤ st'.optIdx := by
  induction as with
  | nil =>
    intro st st' h
    cases h
    exact Nat.le_refl _
  | cons a rest ih =>
    intro st st' h
    unfold foldE at h
    split at h
    · exact Except.noConfusion h
    · next s1 hs1 =>
      exact Nat.le_trans (processAnswer_optIdx_mono qm st a s1 hs1) (ih s1 st' h)

theorem catalog_cols_no_slot :
    ∀ e ∈ Unnamed.catalog, ∀ c ∈ e.2, c ∉ Unnamed.optionalDetailFields := by decide

/-- C5: an answer whose label matches a catch-all trigger phrase but no
specific catalog entry is assigned the next unused catch-all slot of the
fixed sequence, and the slot index advances; when the four slots are
consumed, such an answer sets no record column (only the unmapped log grows,
so it is dropped from the projected record); the slot index never decreases
across the per-answer loop of one event, and no specific catalog entry can
write a catch-all column, so a consumed slot is never reused within one
event. -/
theorem c5_catch_all (st : ATState) (qt qr : String) (tv ov : Json)
    (hspec : Unnamed.specificFields qt qr = none)
    (htrig : Unnamed.catchAllTrigger qt qr = true) :
    (∀ h : st.optIdx < Unnamed.optionalDetailFields.length,
      Unnamed.applyMapping st qt qr tv ov =
        Except.ok { st with
          fields := objSet st.fields (Unnamed.optionalDetailFields.get ⟨st.optIdx, h⟩) (some tv),
          mappedCount := st.mappedCount + 1, optIdx := st.optIdx + 1 })
    ∧ (Unnamed.optionalDetailFields.length ≤ st.optIdx → ∀ s, ov = .str s →
        Unnamed.applyMapping st qt qr tv ov =
          Except.ok { st with unmapped := st.unmapped ++ [.str (s.take 50)] })
    ∧ (∀ (qm : List (String × Option Json)) (as : List Json) (st' : ATState),
        foldE (Unnamed.processAnswer qm) st as = Except.ok st' → st.optIdx ≤ st'.optIdx)
    ∧ (∀ e ∈ Unnamed.catalog, ∀ c ∈ e.2, c ∉ Unnamed.optionalDetailFields) := by
  refine ⟨?_, ?_, fun qm as st' h => foldE_optIdx_mono qm as st st' h, catalog_cols_no_slot⟩
  · intro h
    have hgetD : Unnamed.optionalDetailFields.getD st.optIdx "" =
        Unnamed.optionalDetailFields.get ⟨st.optIdx, h⟩ := by
      rw [List.getD_eq_getElem?_getD, List.getElem?_eq_getElem h]
      rfl
    simp only [Unnamed.applyMapping, hspec, htrig, h, hgetD]
    simp
  · intro h s hov
    have hnot : ¬(st.optIdx < Unnamed.optionalDetailFields.length) := Nat.not_lt.mpr h
    simp only [Unnamed.applyMapping, hspec, htrig, hnot, hov]
    simp

/-- Witness for C5: from a state with no slot used, a purely generic
optional label is assigned the first slot, Investment Details; from a state
with all four slots used, the same answer leaves the fields unchanged and is
logged as unmapped. -/
theorem c5_catch_all_witness :
    Unnamed.applyMapping { fields := [], mappedCount := 0, unmapped := [], optIdx := 0 }
        "if you want to tell us more (optional)" "" (.str "v1") (.str "v1") =
      Except.ok { fields := [("Investment Details", some (.str "v1"))],
                  mappedCount := 1, unmapped := [], optIdx := 1 }
    ∧ Unnamed.applyMapping { fields := [], mappedCount := 0, unmapped := [], optIdx := 4 }
        "if you want to tell us more (optional)" "" (.str "v1") (.str "v1") =
      Except.ok { fields := [], mappedCount := 0, unmapped := [.str "v1"], optIdx := 4 } := by
  have h0 := c5_catch_all { fields := [], mappedCount := 0, unmapped := [], optIdx := 0 }
    "if you want to tell us more (optional)" "" (.str "v1") (.str "v1") rfl rfl
  have h4 := c5_catch_all { fields := [], mappedCount := 0, unmapped := [], optIdx := 4 }
    "if you want to tell us more (optional)" "" (.str "v1") (.str "v1") rfl rfl
  refine ⟨h0.1 (by decide), ?_⟩
  have := h4.2.1 (by decide) "v1" rfl
  simpa using this

/-- Counterexample for C6, in two halves. First, persistence does not drop
empty values: an event whose single answer has the empty string as extracted
value still produces a stored Answer row whose answer text is the empty
string. Second, projection does not drop whitespace-only values: an answer
whose extracted value is a single space is truthy, passes the skip check,
and is written into the Budget Range column of the projected record. -/
theorem c6_value_drop_counterexample :
    (Unnamed.saveToSupabase db0 frEmpty).1.answers =
      [{ submission_id := 0, question_id := some (.str "q1"),
         question_text := some (.str "Unknown"), answer_text := some (.str ""),
         answer_type := some (.str "text") }]
    ∧ Unnamed.processAnswer [("q1", some (.str "budget"))]
        { fields := [], mappedCount := 0, unmapped := [], optIdx := 0 }
        (.obj [("field", .obj [("id", .str "q1")]), ("type", .str "text"),
               ("text", .str " ")]) =
      Except.ok { fields := [("Budget Range", some (.str " "))], mappedCount := 1,
                  unmapped := [], optIdx := 0 } :=
  ⟨rfl, rfl⟩

/-- C6 as amended: an answer whose extracted value is absent, null, the
empty string (more generally any falsy value) or the literal N/A sentinel is
dropped before projection: the per-answer loop leaves the record state
completely unchanged, so no target column is set. Persistence applies no
such filter: stored Answer rows keep whatever the extractor returned,
including empty strings, and whitespace-only values are ordinary truthy
values for both stores. -/
theorem c6_value_skip_amended (qm : List (String × Option Json)) (st : ATState) (a : Json)
    (qt qr : String) (av : Option Json)
    (h1 : lcTrim (objLookup qm (jsKeyOf (optChain (jsGet a "field") "id"))) = Except.ok qt)
    (h2 : lcTrim (optChain (jsGet a "field") "ref") = Except.ok qr)
    (h3 : Unnamed.getAnswerText a = Except.ok av)
    (h4 : jsOptTruthy av = false ∨ av = some (.str "N/A")) :
    Unnamed.processAnswer qm st a = Except.ok st := by
  unfold Unnamed.processAnswer
  simp only [h1, h2, h3]
  rcases h4 with h4 | h4
  · simp [h4]
  · simp [h4, isNASentinel]

/-- Witness for C6 as amended: the empty-valued text answer of the
counterexample event is skipped by the projection loop with the state
unchanged. -/
theorem c6_value_skip_amended_witness :
    Unnamed.processAnswer []
      { fields := [], mappedCount := 0, unmapped := [], optIdx := 0 }
      (.obj [("field", .obj [("id", .str "q1")]), ("type", .str "text"), ("text", .str "")]) =
      Except.ok { fields := [], mappedCount := 0, unmapped := [], optIdx := 0 } :=
  c6_value_skip_amended [] _ _ "" "" (some (.str "")) rfl rfl rfl (Or.inl rfl)

/-- Counterexample for C8: the per-answer inline label is never consulted.
For an event with no embedded definition whose single answer carries the
inline field title Inline Label and no ref, the stored question text is the
literal Unknown, not the inline label that the claimed fallback order
requires. -/
theorem c8_label_fallback_counterexample :
    (Unnamed.saveToSupabase db0 frInline).1.answers.map (fun r => r.question_text) =
      [some (.str "Unknown")] := rfl

/-- C8 as amended: the stored question label of a persisted Answer is
resolved as the label found for the answer field id in the question map
built from the embedded form-schema definition; if that is absent or falsy,
the answer schema reference string; if that is also absent or falsy, the
literal Unknown. The per-answer inline field title takes no part in the
fallback. -/
theorem c8_label_fallback_amended (qm : List (String × Option Json)) (sid : Nat)
    (a : Json) (row : AnswerRow) (h : Unnamed.mkAnswerRow qm sid a = Except.ok row) :
    (∀ t, objLookup qm (jsKeyOf (jsGet2 a "field" "id")) = some t → jsTruthy t = true →
      row.question_text = some t)
    ∧ (jsOptTruthy (objLookup qm (jsKeyOf (jsGet2 a "field" "id"))) = false →
        ∀ r, jsGet2 a "field" "ref" = some r → jsTruthy r = true →
        row.question_text = some r)
    ∧ (jsOptTruthy (objLookup qm (jsKeyOf (jsGet2 a "field" "id"))) = false →
        jsOptTruthy (jsGet2 a "field" "ref") = false →
        row.question_text = some (.str "Unknown")) := by
  unfold Unnamed.mkAnswerRow at h
  split at h
  · exact Except.noConfusion h
  · cases h
    refine ⟨?_, ?_, ?_⟩
    · intro t hlook htt
      show jsOr (objLookup qm (jsKeyOf (jsGet2 a "field" "id")))
        (jsOr (jsGet2 a "field" "ref") (some (.str "Unknown"))) = some t
      simp only [jsOr, jsOptTruthy, hlook, htt]
      simp
    · intro hfalsy r href hrt
      show jsOr (objLookup qm (jsKeyOf (jsGet2 a "field" "id")))
        (jsOr (jsGet2 a "field" "ref") (some (.str "Unknown"))) = some r
      simp only [jsOr, hfalsy, href]
      simp [jsOptTruthy, hrt]
    · intro hfalsy hreff
      show jsOr (objLookup qm (jsKeyOf (jsGet2 a "field" "id")))
        (jsOr (jsGet2 a "field" "ref") (some (.str "Unknown"))) = some (.str "Unknown")
      simp only [jsOr, hfalsy, hreff]
      simp

/-- Witness for C8 as amended: with a question map entry for the field id,
the stored label is the map entry even though the answer also carries both a
ref and an inline title. -/
theorem c8_label_fallback_amended_witness :
    Unnamed.mkAnswerRow [("q", some (.str "Map Title"))] 0
      (.obj [("field", .obj [("id", .str "q"), ("ref", .str "the-ref"),
                             ("title", .str "Inline Title")]),
             ("type", .str "text"), ("text", .str "x")]) =
      Except.ok { submission_id := 0, question_id := some (.str "q"),
                  question_text := some (.str "Map Title"),
                  answer_text := some (.str "x"),
                  answer_type := some (.str "text") }
    ∧ ({ submission_id := 0, question_id := some (.str "q"),
         question_text := some (.str "Map Title"), answer_text := some (.str "x"),
         answer_type := some (.str "text") } : AnswerRow).question_text =
        some (.str "Map Title") :=
  ⟨rfl,
   (c8_label_fallback_amended [("q", some (.str "Map Title"))] 0
      (.obj [("field", .obj [("id", .str "q"), ("ref", .str "the-ref"),
                             ("title", .str "Inline Title")]),
             ("type", .str "text"), ("text", .str "x")])
      { submission_id := 0, question_id := some (.str "q"),
        question_text := some (.str "Map Title"), answer_text := some (.str "x"),
        answer_type := some (.str "text") } rfl).1 (.str "Map Title") rfl rfl⟩

/-- C9: on the scenario event with token abc123, form F1 and one email
answer titled Your Email, the webhook.js pipeline creates a Submission whose
idempotency key column holds abc123, exactly one Answer row of kind email
with value a@b.com, and a projected record whose Email Address column equals
a@b.com. -/
theorem c9_scenario :
    (Api.saveToSupabase db0 fr9).2 = Except.ok 0
    ∧ (Api.saveToSupabase db0 fr9).1.submissions.map (fun s => s.submission_id) =
        [some (.str "abc123")]
    ∧ (Api.saveToSupabase db0 fr9).1.answers.map (fun r => (r.answer_type, r.answer_text)) =
        [(some (.str "email"), some (.str "a@b.com"))]
    ∧ Api.buildRecordFields none fr9 = Except.ok flds9
    ∧ objLookup flds9 "Email Address" = some (.str "a@b.com") :=
  ⟨rfl, rfl, rfl, rfl, rfl⟩

/-- C10: when two answers of one event classify to the same target column,
both assignments succeed without error, the projected record ends up holding
only the later answer value in that column (plain overwrite, no
concatenation), and neither answer is reported unmapped, so the overwritten
answer leaves no trace. -/
theorem c10_overwrite (st : ATState) (qt1 qr1 qt2 qr2 : String) (tv1 tv2 ov1 ov2 : Json)
    (cols1 cols2 : List String) (col : String)
    (hs1 : Unnamed.specificFields qt1 qr1 = some cols1) (hc1 : col ∈ cols1)
    (hs2 : Unnamed.specificFields qt2 qr2 = some cols2) (hc2 : col ∈ cols2) :
    ∃ st1 st2 : ATState,
      Unnamed.applyMapping st qt1 qr1 tv1 ov1 = Except.ok st1
      ∧ Unnamed.applyMapping st1 qt2 qr2 tv2 ov2 = Except.ok st2
      ∧ objLookup st1.fields col = some tv1
      ∧ objLookup st2.fields col = some tv2
      ∧ st2.unmapped = st.unmapped
      ∧ st2.mappedCount = st.mappedCount + 2 := by
  refine ⟨⟨objSetList st.fields cols1 (some tv1), st.mappedCount + 1,
      st.unmapped, st.optIdx⟩,
    ⟨objSetList (objSetList st.fields cols1 (some tv1)) cols2 (some tv2),
      st.mappedCount + 2, st.unmapped, st.optIdx⟩, ?_, ?_, ?_, ?_, rfl, rfl⟩
  · simp only [Unnamed.applyMapping, hs1]
  · simp only [Unnamed.applyMapping, hs2]
  · exact objLookup_objSetList_mem cols1 st.fields (some tv1) col hc1
  · exact objLookup_objSetList_mem cols2 _ (some tv2) col hc2

/-- Witness for C10: two answers whose labels both contain the word name map
to the Full Name column; after both are applied, Full Name holds the second
value Bob, the unmapped log is empty and two answers count as mapped. -/
theorem c10_overwrite_witness :
    ∃ st1 st2 : ATState,
      Unnamed.applyMapping { fields := [], mappedCount := 0, unmapped := [], optIdx := 0 }
          "your name" "" (.str "Alice") (.str "Alice") = Except.ok st1
      ∧ Unnamed.applyMapping st1 "full name" "" (.str "Bob") (.str "Bob") = Except.ok st2
      ∧ objLookup st1.fields "Full Name" = some (.str "Alice")
      ∧ objLookup st2.fields "Full Name" = some (.str "Bob")
      ∧ st2.unmapped = []
      ∧ st2.mappedCount = 2 :=
  c10_overwrite { fields := [], mappedCount := 0, unmapped := [], optIdx := 0 }
    "your name" "" "full name" "" (.str "Alice") (.str "Bob") (.str "Alice") (.str "Bob")
    ["Full Name", "Name"] ["Full Name", "Name"] "Full Name"
    rfl (by simp) rfl (by simp)
